import Mathlib

/-!
Verification of the scope repository (model composer in src/scope/nn.py and
bulk identifier fetcher in src/tools/get_quad_ids.py) against its
natural-language specification.

The remote catalog is modelled as data: for the paginated find queries of
get_field_ids, a partition is the ordered list of identifiers matching the
filter, and the kwargs limit/skip act as take/drop on that list.  Stateful
Python code becomes explicit state passing; a Python exception becomes
Except.error; the unbounded while loop of get_ids_loop takes a fuel
argument, with fuel exhaustion returned as none.
-/

/-- Source line 258 of get_quad_ids.py: a limit of 0 is substituted with a
very large limit inside get_field_ids before the query is issued. -/
def substLimit (limit : Nat) : Nat := if limit = 0 then 10000000000 else limit

/-- Model of get_field_ids (src/tools/get_quad_ids.py lines 220-310): the
remote find query over the partition db with kwargs skip and limit returns
the matching identifiers in order, after the zero-limit substitution.  The
CSV and h5 side effects are I/O and are not modelled. -/
def get_field_ids (db : List Nat) (skip limit : Nat) : List Nat :=
  (db.drop skip).take (substLimit limit)

/-- Model of the inner while loop of get_ids_loop (lines 88-110): starting
at page index i, repeatedly query get_field_ids with skip = i * limit; a
page of length < limit ends the loop, returning the number of queries
issued (final i + 1) and the recorded length len(data) + i * limit.
Fuel bounds the number of iterations; none means the fuel ran out. -/
def quadLoop (db : List Nat) (limit : Nat) : Nat → Nat → Option (Nat × Nat)
  | _, 0 => none
  | i, fuel + 1 =>
    if (get_field_ids db (i * limit) limit).length < limit then
      some (i + 1, (get_field_ids db (i * limit) limit).length + i * limit)
    else quadLoop db limit (i + 1) fuel

lemma length_get_field_ids (db : List Nat) (skip limit : Nat) :
    (get_field_ids db skip limit).length = min (substLimit limit) (db.length - skip) := by
  simp [get_field_ids]

lemma quadLoop_shift (db : List Nat) (L : Nat) :
    ∀ fuel i, quadLoop db L (i + 1) fuel =
      (quadLoop (db.drop L) L i fuel).map (fun p => (p.1 + 1, p.2 + L)) := by
  intro fuel
  induction fuel with
  | zero => intro i; rfl
  | succ f ih =>
    intro i
    have hdata : get_field_ids db ((i + 1) * L) L = get_field_ids (db.drop L) (i * L) L := by
      simp only [get_field_ids, List.drop_drop]
      rw [Nat.succ_mul, Nat.add_comm]
    simp only [quadLoop, hdata]
    by_cases h : (get_field_ids (db.drop L) (i * L) L).length < L
    · simp only [h, if_true, Option.map_some']
      rw [Nat.succ_mul]
      simp [Nat.add_assoc]
    · simp only [h, if_false]
      exact ih (i + 1)

lemma quadLoop_full (L : Nat) (hL : 0 < L) :
    ∀ fuel (db : List Nat), db.length / L < fuel →
      quadLoop db L 0 fuel = some (db.length / L + 1, db.length) := by
  intro fuel
  induction fuel with
  | zero => intro db h; exact absurd h (Nat.not_lt_zero _)
  | succ f ih =>
    intro db h
    have hL0 : L ≠ 0 := by omega
    have hsub : substLimit L = L := by simp [substLimit, hL0]
    have hlen : (get_field_ids db 0 L).length = min L db.length := by
      rw [length_get_field_ids, hsub, Nat.sub_zero]
    simp only [quadLoop, Nat.zero_mul]
    by_cases hcase : db.length < L
    · have hl : (get_field_ids db 0 L).length = db.length := by omega
      rw [hl]
      simp only [hcase, if_true]
      rw [Nat.div_eq_of_lt hcase]
      simp
    · have hge : L ≤ db.length := by omega
      have hl : (get_field_ids db 0 L).length = L := by omega
      rw [hl]
      simp only [lt_irrefl, if_false]
      rw [quadLoop_shift db L f 0]
      have hdl : (db.drop L).length = db.length - L := by simp
      have hdiv : db.length / L = (db.length - L) / L + 1 := Nat.div_eq_sub_div hL hge
      have hf : (db.drop L).length / L < f := by rw [hdl]; omega
      rw [ih (db.drop L) hf, hdl, Option.map_some']
      have h1 : db.length - L + L = db.length := by omega
      have h2 : (db.length - L) / L + 1 + 1 = db.length / L + 1 := by omega
      rw [h1, h2]

/-- C1: for a partition with true matching-record count N = db.length and
page limit L >= 1, where each query returns min(L, remaining) records in
order (the list model of the find query), the while loop of get_ids_loop
issues exactly ceil((N+1)/L) queries, pages of exactly L records continuing
the loop and any shorter page ending it, and the recorded count equals N. -/
theorem quadLoop_pagination (db : List Nat) (L fuel : Nat) (hL : 1 ≤ L)
    (hfuel : db.length / L < fuel) :
    quadLoop db L 0 fuel = some ((db.length + 1 + (L - 1)) / L, db.length) := by
  have hceil : db.length + 1 + (L - 1) = db.length + L := by omega
  rw [hceil, Nat.add_div_right _ hL]
  exact quadLoop_full L hL fuel db hfuel

/-- Witness for C1 at db of length 5, limit 2, fuel 3: three queries are
issued (pages 2, 2, 1) and the recorded count is 5. -/
theorem quadLoop_pagination_witness :
    quadLoop [10, 11, 12, 13, 14] 2 0 3 = some ((5 + 1 + (2 - 1)) / 2, 5) :=
  quadLoop_pagination [10, 11, 12, 13, 14] 2 3 (by decide) (by decide)

/-- C2: with limit = 0, get_field_ids substitutes the very large limit and
a single query returns all matching rows, but the while loop of
get_ids_loop compares the page length against the raw limit 0, a test that
never succeeds, so the loop never exhausts the partition and never moves
on: for every amount of fuel it fails to terminate. -/
theorem get_ids_loop_limit_zero_diverges :
    (∀ (db : List Nat) (skip : Nat),
        get_field_ids db skip 0 = (db.drop skip).take 10000000000) ∧
    ∀ (db : List Nat) (i fuel : Nat), quadLoop db 0 i fuel = none := by
  refine ⟨fun db skip => rfl, fun db i fuel => ?_⟩
  induction fuel generalizing i with
  | zero => rfl
  | succ f ih =>
    simp only [quadLoop, Nat.not_lt_zero, if_false]
    exact ih (i + 1)

/-! ## Summary dictionary of get_ids_loop (lines 70-129)

The Python dict dct and the local variable count are modelled with Option
fields: none mirrors an absent key (access raises KeyError) or an unbound
local (use raises NameError).  At verbose > 0 the loop records the query
parameters, a per-partition count map dct.ccd.quad, and the running total
count; at verbose = 0 none of these are initialized, yet lines 84 and 119
access them unconditionally. -/

/-- The per-ccd map quad number to recorded count, in insertion order. -/
abbrev QuadMap := List (Nat × Nat)

/-- The map ccd number to its quad map, in insertion order. -/
abbrev CcdMap := List (Nat × QuadMap)

/-- Python range(a, b + 1) over an inclusive pair, as used for the ccd and
quad ranges at lines 83 and 86. -/
def rangeIncl (r : Nat × Nat) : List Nat := List.range' r.1 (r.2 + 1 - r.1)

/-- The quad loop of one ccd (lines 86-110): for each quad run the paginated
while loop; when verbose > 0, record the partition length and add it to the
running count, which must be bound (some) or the use raises NameError. -/
def runQuads (db : Nat → List Nat) (limit fuel verbose : Nat) :
    List Nat → QuadMap → Option Nat → Except String (QuadMap × Option Nat)
  | [], qm, count => Except.ok (qm, count)
  | q :: qs, qm, count =>
    match quadLoop (db q) limit 0 fuel with
    | none => Except.error "while loop did not terminate"
    | some (_, len) =>
      if 0 < verbose then
        match count with
        | none => Except.error "NameError: count"
        | some c => runQuads db limit fuel verbose qs (qm ++ [(q, len)]) (some (c + len))
      else runQuads db limit fuel verbose qs qm count

/-- The ccd loop (lines 83-110): line 84 writes into dct.ccd before any
verbosity check, so an absent ccd key (verbose = 0) raises KeyError. -/
def runCcds (db : Nat → Nat → List Nat) (limit fuel verbose : Nat) (quads : List Nat) :
    List Nat → Option CcdMap → Option Nat → Except String (Option CcdMap × Option Nat)
  | [], cm, count => Except.ok (cm, count)
  | c :: cs, cm, count =>
    match cm with
    | none => Except.error "KeyError: ccd"
    | some m =>
      match runQuads (db c) limit fuel verbose quads [] count with
      | Except.error e => Except.error e
      | Except.ok (qm, count2) =>
        runCcds db limit fuel verbose quads cs (some (m ++ [(c, qm)])) count2

/-- The query parameters stored in the summary when verbose > 0
(lines 72-76). -/
structure Params where
  catalog : String
  minobs : Nat
  field : Nat
  ccd_range : Nat × Nat
  quad_range : Nat × Nat
deriving Repr, DecidableEq

/-- The dictionary dumped to meta.json at line 125: the parameter keys and
the ccd map are present only when verbose > 0; total is always written. -/
structure Summary where
  params : Option Params
  ccd : Option CcdMap
  total : Nat
deriving Repr, DecidableEq

/-- Model of get_ids_loop (lines 21-129): the db function gives, per ccd and
quad, the ordered list of identifiers matching the filter.  The h5 and ser
side effects (verbose > 1) are I/O and are not modelled; the returned value
is the dictionary written to meta.json, or the uncaught Python exception. -/
def get_ids_loop (db : Nat → Nat → List Nat) (catalog : String) (field : Nat)
    (ccd_range quad_range : Nat × Nat) (minobs limit verbose fuel : Nat) :
    Except String Summary :=
  let params : Option Params :=
    if 0 < verbose then some ⟨catalog, minobs, field, ccd_range, quad_range⟩ else none
  let cm0 : Option CcdMap := if 0 < verbose then some [] else none
  let count0 : Option Nat := if 0 < verbose then some 0 else none
  match runCcds db limit fuel verbose (rangeIncl quad_range) (rangeIncl ccd_range) cm0 count0 with
  | Except.error e => Except.error e
  | Except.ok (cm, count) =>
    match count with
    | none => Except.error "NameError: count"
    | some c => Except.ok ⟨params, cm, c⟩

/-- Sum of the recorded counts of one ccd entry. -/
def sumQuad (qm : QuadMap) : Nat := (qm.map Prod.snd).sum

/-- Sum of all recorded per-partition counts of the summary map. -/
def sumCcd (cm : CcdMap) : Nat := (cm.map (fun p => sumQuad p.2)).sum

lemma runQuads_count (db : Nat → List Nat) (limit fuel verbose : Nat)
    (hv : 0 < verbose) :
    ∀ (qs : List Nat) (qm : QuadMap) (c : Nat) (qm2 : QuadMap) (count2 : Option Nat),
      runQuads db limit fuel verbose qs qm (some c) = Except.ok (qm2, count2) →
      ∃ e, qm2 = qm ++ e ∧ count2 = some (c + sumQuad e) := by
  intro qs
  induction qs with
  | nil =>
    intro qm c qm2 count2 h
    refine ⟨[], ?_, ?_⟩ <;> simp_all [runQuads, sumQuad]
  | cons q qs ih =>
    intro qm c qm2 count2 h
    simp only [runQuads] at h
    cases hq : quadLoop (db q) limit 0 fuel with
    | none => rw [hq] at h; exact absurd h (by simp)
    | some p =>
      rw [hq] at h
      simp only [hv, if_true] at h
      obtain ⟨e, he, hc⟩ := ih (qm ++ [(q, p.2)]) (c + p.2) qm2 count2 h
      refine ⟨(q, p.2) :: e, ?_, ?_⟩
      · rw [he]; simp
      · rw [hc]; simp [sumQuad]; omega

lemma runCcds_count (db : Nat → Nat → List Nat) (limit fuel verbose : Nat)
    (quads : List Nat) (hv : 0 < verbose) :
    ∀ (cs : List Nat) (m : CcdMap) (c : Nat) (cm2 : Option CcdMap) (count2 : Option Nat),
      runCcds db limit fuel verbose quads cs (some m) (some c) = Except.ok (cm2, count2) →
      ∃ e, cm2 = some (m ++ e) ∧ count2 = some (c + sumCcd e) := by
  intro cs
  induction cs with
  | nil =>
    intro m c cm2 count2 h
    refine ⟨[], ?_, ?_⟩ <;> simp_all [runCcds, sumCcd]
  | cons c0 cs ih =>
    intro m c cm2 count2 h
    simp only [runCcds] at h
    cases hq : runQuads (db c0) limit fuel verbose quads [] (some c) with
    | error e => rw [hq] at h; exact absurd h (by simp)
    | ok p =>
      rw [hq] at h
      obtain ⟨qm, count1⟩ := p
      obtain ⟨e1, he1, hc1⟩ := runQuads_count (db c0) limit fuel verbose hv quads [] c qm count1 hq
      subst hc1
      obtain ⟨e, he, hc⟩ := ih (m ++ [(c0, qm)]) (c + sumQuad e1) cm2 count2 h
      refine ⟨(c0, qm) :: e, ?_, ?_⟩
      · rw [he]; simp
      · rw [hc]
        simp only [List.nil_append] at he1
        subst he1
        simp [sumCcd]
        omega

/-- C7: for every completed run of get_ids_loop with verbose > 0, the total
field of the summary equals the sum of all per-partition (ccd, quad) counts
recorded in the ccd map of the summary. -/
theorem get_ids_loop_total_eq_sum (db : Nat → Nat → List Nat) (catalog : String)
    (field : Nat) (ccd_range quad_range : Nat × Nat)
    (minobs limit verbose fuel : Nat) (s : Summary)
    (hv : 0 < verbose)
    (h : get_ids_loop db catalog field ccd_range quad_range minobs limit verbose fuel =
      Except.ok s) :
    ∃ cm, s.ccd = some cm ∧ s.total = sumCcd cm := by
  simp only [get_ids_loop, hv, if_true] at h
  cases hr : runCcds db limit fuel verbose (rangeIncl quad_range) (rangeIncl ccd_range)
      (some []) (some 0) with
  | error e => rw [hr] at h; exact absurd h (by simp)
  | ok p =>
    rw [hr] at h
    obtain ⟨cm, count⟩ := p
    obtain ⟨e, he, hc⟩ := runCcds_count db limit fuel verbose (rangeIncl quad_range) hv
      (rangeIncl ccd_range) [] 0 cm count hr
    subst he hc
    simp only at h
    cases h
    exact ⟨e, by simp, by simp⟩

/-- Witness for C7: one ccd with two quads of three matching records each at
limit 2 yields the summary total 6, the sum of the two recorded counts. -/
theorem get_ids_loop_total_eq_sum_witness :
    ∃ cm, (Summary.mk (some ⟨"cat", 20, 301, (1, 1), (1, 2)⟩)
        (some [(1, [(1, 3), (2, 3)])]) 6).ccd = some cm ∧
      (Summary.mk (some ⟨"cat", 20, 301, (1, 1), (1, 2)⟩)
        (some [(1, [(1, 3), (2, 3)])]) 6).total = sumCcd cm :=
  get_ids_loop_total_eq_sum (fun _ _ => [7, 8, 9]) "cat" 301 (1, 1) (1, 2) 20 2 2 5
    (Summary.mk (some ⟨"cat", 20, 301, (1, 1), (1, 2)⟩)
      (some [(1, [(1, 3), (2, 3)])]) 6)
    (by decide) (by rfl)

/-- C6 fails on the code: at verbose = 0 the dictionary is empty and the
local count is unbound, so line 84 raises KeyError for a nonempty ccd range
and line 119 raises NameError for an empty one; in either case the run
aborts with an uncaught exception and no JSON summary is written. -/
theorem get_ids_loop_verbose_zero_raises (db : Nat → Nat → List Nat)
    (catalog : String) (field : Nat) (ccd_range quad_range : Nat × Nat)
    (minobs limit fuel : Nat) :
    ∃ e, get_ids_loop db catalog field ccd_range quad_range minobs limit 0 fuel =
      Except.error e := by
  simp only [get_ids_loop, lt_irrefl, if_false]
  cases hc : rangeIncl ccd_range with
  | nil => exact ⟨"NameError: count", by simp [runCcds]⟩
  | cons c cs => exact ⟨"KeyError: ccd", by simp [runCcds]⟩

/-! ## Model composer (src/scope/nn.py)

The optimizer object built by DNN.setup (lines 193-225) is modelled by an
inductive with one constructor per keras constructor call: legacy Adam for
the "adam" branch, SGD for the "sgd" branch, and plain Adam for the
fallback branch.  Hyperparameters are exact rationals. -/

/-- The three optimizer constructor calls of DNN.setup. -/
inductive Optimizer where
  | adamLegacy (learning_rate beta_1 beta_2 epsilon decay amsgrad : ℚ)
  | sgd (learning_rate momentum decay : ℚ) (nesterov : Bool)
  | adam (learning_rate beta_1 beta_2 epsilon decay : ℚ) (amsgrad : Bool)
deriving Repr, DecidableEq

/-- Python kwargs.get(key, default) over the numeric keyword arguments. -/
def kwGet (kwargs : List (String × ℚ)) (key : String) (dflt : ℚ) : ℚ :=
  match kwargs.find? (fun p => p.1 == key) with
  | some p => p.2
  | none => dflt

/-- Python kwargs.get(key, default) over the boolean keyword arguments. -/
def kwGetB (kwargs : List (String × Bool)) (key : String) (dflt : Bool) : Bool :=
  match kwargs.find? (fun p => p.1 == key) with
  | some p => p.2
  | none => dflt

/-- Model of the optimizer selection of DNN.setup (nn.py lines 193-225),
keyword defaults exactly as in the source; in the "sgd" branch line 211
reads the decay value from the "epsilon" keyword with default 1e-6. -/
def setupOptimizer (optimizer : String) (kwargs : List (String × ℚ))
    (kwargsB : List (String × Bool)) : Optimizer :=
  if optimizer = "adam" then
    Optimizer.adamLegacy (kwGet kwargs "lr" (3 / 10000)) (kwGet kwargs "beta_1" (9 / 10))
      (kwGet kwargs "beta_2" (999 / 1000)) (kwGet kwargs "epsilon" (1 / 10000000))
      (kwGet kwargs "decay" 0) (kwGet kwargs "amsgrad" (3 / 10000))
  else if optimizer = "sgd" then
    Optimizer.sgd (kwGet kwargs "lr" (3 / 10000)) (kwGet kwargs "momentum" (9 / 10))
      (kwGet kwargs "epsilon" (1 / 1000000)) (kwGetB kwargsB "nesterov" true)
  else
    Optimizer.adam (3 / 10000) (9 / 10) (999 / 1000) (1 / 10000000) 0 false

/-- C3 fails on the code: calling setup with optimizer "sgd" and the
keyword decay = 1/2 stores an SGD optimizer whose decay is 1e-6, the
default of the "epsilon" keyword read at line 211, not the supplied 1/2. -/
theorem setup_sgd_decay_ignored :
    setupOptimizer "sgd" [("decay", (1 : ℚ) / 2)] [] =
        Optimizer.sgd (3 / 10000) (9 / 10) (1 / 1000000) true ∧
      ((1 : ℚ) / 1000000) ≠ (1 : ℚ) / 2 := by
  constructor
  · rfl
  · norm_num

/-- C9: an optimizer name other than "adam" and "sgd" is not fatal: setup
stores a plain Adam optimizer with learning rate 3e-4, beta_1 0.9, beta_2
0.999, epsilon 1e-7, decay 0 and amsgrad false, ignoring every supplied
keyword override. -/
theorem setup_unknown_optimizer_default_adam (name : String)
    (kwargs : List (String × ℚ)) (kwargsB : List (String × Bool))
    (h1 : name ≠ "adam") (h2 : name ≠ "sgd") :
    setupOptimizer name kwargs kwargsB =
      Optimizer.adam (3 / 10000) (9 / 10) (999 / 1000) (1 / 10000000) 0 false := by
  simp only [setupOptimizer, h1, h2, if_false]

/-- Witness for C9 at the name "rmsprop" with a supplied lr override, which
is ignored. -/
theorem setup_unknown_optimizer_default_adam_witness :
    setupOptimizer "rmsprop" [("lr", 1)] [] =
      Optimizer.adam (3 / 10000) (9 / 10) (999 / 1000) (1 / 10000000) 0 false :=
  setup_unknown_optimizer_default_adam "rmsprop" [("lr", 1)] [] (by decide) (by decide)

/-- The model value produced by DNN.build_model when at least one branch is
enabled: the branch flags and the input shapes the model consumes. -/
structure BuiltModel where
  features_input_shape : List Nat
  dmdt_input_shape : List Nat
  dense_branch : Bool
  conv_branch : Bool
deriving Repr, DecidableEq

/-- Model of DNN.build_model (nn.py lines 248-320): with both branches
disabled it raises ValueError before any layer is assembled. -/
def build_model (dense_branch conv_branch : Bool)
    (features_input_shape : List Nat := [40])
    (dmdt_input_shape : List Nat := [26, 26, 1]) : Except String BuiltModel :=
  if (!dense_branch) && (!conv_branch) then
    Except.error "model must have at least one branch"
  else
    Except.ok ⟨features_input_shape, dmdt_input_shape, dense_branch, conv_branch⟩

/-- Model of the guard of ScopeNet init (nn.py lines 102-103). -/
def scopeNetInit (dense_branch conv_branch : Bool) (dropout_rate : ℚ) :
    Except String (Bool × Bool × ℚ) :=
  if (!dense_branch) && (!conv_branch) then
    Except.error "Model must have at least one branch"
  else
    Except.ok (dense_branch, conv_branch, dropout_rate)

/-- C8: constructing the model with both the dense and the convolutional
branch disabled always fails immediately with the ValueError of
build_model, and likewise in ScopeNet init; no model value is produced and
the error is not recovered internally. -/
theorem build_model_no_branch_error :
    ∀ (fshape dshape : List Nat) (rate : ℚ),
      build_model false false fshape dshape =
          Except.error "model must have at least one branch" ∧
        scopeNetInit false false rate =
          Except.error "Model must have at least one branch" :=
  fun _ _ _ => ⟨rfl, rfl⟩

/-! ## Cone search (get_cone_ids, src/tools/get_quad_ids.py lines 132-217)

The remote service is abstracted as a function resp from the issued query
to the catalog section of the response: none models a response whose data
lacks the catalog (the temp_data is None check at line 195), some td the
ordered association of each queried identifier with its matching record
identifiers.  Python str.replace with the one-character pattern is a
character map. -/

/-- The cone_search query object built at lines 173-190: the radec dict of
identifier to coordinates, the radius and unit, and the catalog name. -/
structure ConeQuery where
  radec : List (String × ℚ × ℚ)
  cone_search_radius : ℚ
  cone_search_unit : String
  catalog : String
deriving Repr, DecidableEq

/-- The list slice l[i * L : min n ((i + 1) * L)] of lines 161-169, where n
is always the length of the obj_id list. -/
def chunkOf (l : List α) (n L i : Nat) : List α :=
  (l.drop (i * L)).take (min n ((i + 1) * L) - i * L)

/-- The query of chunk i: the identifier slice zipped with the coordinate
slices (Python builds radec by indexing, identical to zip for lists of
equal length), plus radius, unit and catalog. -/
def mkConeQuery (objs : List String) (ras decs : List ℚ) (catalog : String)
    (radius : ℚ) (unitName : String) (L i : Nat) : ConeQuery :=
  let n := objs.length
  ⟨(chunkOf objs n L i).zip ((chunkOf ras n L i).zip (chunkOf decs n L i)),
    radius, unitName, catalog⟩

/-- Python dict assignment d[k] = v on an insertion-ordered association
list. -/
def dictSet (d : List (String × List Nat)) (k : String) (v : List Nat) :
    List (String × List Nat) :=
  if d.any (fun p => p.1 == k) then
    d.map (fun p => if p.1 == k then (k, v) else p)
  else d ++ [(k, v)]

/-- Python data.update(temp_data) at line 199. -/
def dictUpdate (d new : List (String × List Nat)) : List (String × List Nat) :=
  new.foldl (fun acc p => dictSet acc p.1 p.2) d

/-- The ValueError message of line 197. -/
def coneErrMsg (sel : List String) : String :=
  "No data found for obj_ids " ++ String.intercalate ", " sel

/-- Python obj.replace with the one-character underscore pattern and the
one-character dot replacement (line 211). -/
def replaceUnderscore (s : String) : String :=
  String.mk (s.data.map (fun c => if c = '_' then '.' else c))

/-- The while loop of get_cone_ids (lines 160-206): out of fuel means the
loop did not terminate; each step issues the chunk query, raises ValueError
when the response holds no data for the catalog, merges the chunk into
data, and exits once (i + 1) * L reaches the number of identifiers.  The
issued queries are accumulated for observation. -/
def coneLoop (resp : ConeQuery → Option (List (String × List Nat)))
    (objs : List String) (ras decs : List ℚ) (catalog : String) (radius : ℚ)
    (unitName : String) (L : Nat) :
    Nat → Nat → List (String × List Nat) → List ConeQuery →
    Except String (List ConeQuery × List (String × List Nat))
  | 0, _, _, _ => Except.error "while loop did not terminate"
  | fuel + 1, i, data, queries =>
    let q := mkConeQuery objs ras decs catalog radius unitName L i
    match resp q with
    | none => Except.error (coneErrMsg (q.radec.map Prod.fst))
    | some td =>
      if objs.length ≤ (i + 1) * L then
        Except.ok (queries ++ [q], dictUpdate data td)
      else
        coneLoop resp objs ras decs catalog radius unitName L fuel (i + 1)
          (dictUpdate data td) (queries ++ [q])

/-- Lines 208-215: every record of every identifier gets the obj_id column
with underscores replaced by dots, identifiers with an empty match list are
filtered out, and the remaining records are flattened in order into the
returned table of (record id, obj_id) rows. -/
def coneRows (data : List (String × List Nat)) : List (Nat × String) :=
  (data.filter (fun p => decide (0 < p.2.length))).flatMap
    (fun p => p.2.map (fun v => (v, replaceUnderscore p.1)))

/-- Model of get_cone_ids (lines 132-217): substitute a zero batch size
with the very large limit, run the chunk loop, then build the table. -/
def get_cone_ids (resp : ConeQuery → Option (List (String × List Nat)))
    (objs : List String) (ras decs : List ℚ) (catalog : String) (radius : ℚ)
    (unitName : String) (limit_per_query fuel : Nat) :
    Except String (List ConeQuery × List (Nat × String)) :=
  let L := if limit_per_query = 0 then 10000000000 else limit_per_query
  match coneLoop resp objs ras decs catalog radius unitName L fuel 0 [] [] with
  | Except.error e => Except.error e
  | Except.ok (qs, data) => Except.ok (qs, coneRows data)

/-- One unfolding step of the chunk loop. -/
lemma coneLoop_step (resp : ConeQuery → Option (List (String × List Nat)))
    (objs : List String) (ras decs : List ℚ) (catalog : String) (radius : ℚ)
    (unitName : String) (L fuel i : Nat) (data : List (String × List Nat))
    (queries : List ConeQuery) :
    coneLoop resp objs ras decs catalog radius unitName L (fuel + 1) i data queries =
      match resp (mkConeQuery objs ras decs catalog radius unitName L i) with
      | none => Except.error (coneErrMsg
          ((mkConeQuery objs ras decs catalog radius unitName L i).radec.map Prod.fst))
      | some td =>
        if objs.length ≤ (i + 1) * L then
          Except.ok (queries ++ [mkConeQuery objs ras decs catalog radius unitName L i],
            dictUpdate data td)
        else
          coneLoop resp objs ras decs catalog radius unitName L fuel (i + 1)
            (dictUpdate data td)
            (queries ++ [mkConeQuery objs ras decs catalog radius unitName L i]) := rfl

lemma mem_keys_dictSet (d : List (String × List Nat)) (k : String) (v : List Nat) :
    ∀ x ∈ (dictSet d k v).map Prod.fst, x ∈ d.map Prod.fst ∨ x = k := by
  intro x hx
  unfold dictSet at hx
  split at hx
  · simp only [List.map_map, List.mem_map, Function.comp_apply] at hx
    obtain ⟨p, hp, hpx⟩ := hx
    by_cases hk : p.1 == k
    · rw [if_pos hk] at hpx
      right; exact hpx.symm
    · rw [if_neg hk] at hpx
      left; exact List.mem_map.mpr ⟨p, hp, hpx⟩
  · simp only [List.map_append, List.mem_append, List.map_cons, List.map_nil,
      List.mem_singleton] at hx
    rcases hx with h | h
    · left; exact h
    · right; exact h

lemma mem_keys_dictUpdate :
    ∀ (new d : List (String × List Nat)) (x : String),
      x ∈ (dictUpdate d new).map Prod.fst →
      x ∈ d.map Prod.fst ∨ x ∈ new.map Prod.fst := by
  intro new
  induction new with
  | nil => intro d x hx; left; exact hx
  | cons p ps ih =>
    intro d x hx
    have hstep : dictUpdate d (p :: ps) = dictUpdate (dictSet d p.1 p.2) ps := rfl
    rw [hstep] at hx
    rcases ih (dictSet d p.1 p.2) x hx with h | h
    · rcases mem_keys_dictSet d p.1 p.2 x h with h2 | h2
      · left; exact h2
      · right; simp [h2]
    · right; simp [h]

lemma mem_coneRows (data : List (String × List Nat)) (row : Nat × String) :
    row ∈ coneRows data →
    ∃ kv, kv ∈ data ∧ kv.2 ≠ [] ∧ row.1 ∈ kv.2 ∧ row.2 = replaceUnderscore kv.1 := by
  intro h
  unfold coneRows at h
  simp only [List.mem_flatMap, List.mem_filter, List.mem_map, decide_eq_true_eq] at h
  obtain ⟨p, ⟨hpd, hplen⟩, v, hv, hrow⟩ := h
  subst hrow
  exact ⟨p, hpd, List.length_pos.mp hplen, hv, rfl⟩

/-- C5: whenever the chunk loop of get_cone_ids reaches a chunk whose
response holds no data for the catalog, it raises the ValueError of line
197 at once: the whole lookup aborts with the error and no partial result
table is returned, whatever data and queries were already accumulated. -/
theorem coneLoop_no_data_raises (resp : ConeQuery → Option (List (String × List Nat)))
    (objs : List String) (ras decs : List ℚ) (catalog : String) (radius : ℚ)
    (unitName : String) (L i : Nat) (data : List (String × List Nat))
    (queries : List ConeQuery) (fuel : Nat) (hfuel : 0 < fuel)
    (hnone : resp (mkConeQuery objs ras decs catalog radius unitName L i) = none) :
    coneLoop resp objs ras decs catalog radius unitName L fuel i data queries =
      Except.error (coneErrMsg
        ((mkConeQuery objs ras decs catalog radius unitName L i).radec.map Prod.fst)) := by
  obtain ⟨f, rfl⟩ : ∃ f, fuel = f + 1 := ⟨fuel - 1, by omega⟩
  rw [coneLoop_step, hnone]

/-- The response function of a service that never returns data. -/
def wrespNone : ConeQuery → Option (List (String × List Nat)) := fun _ => none

/-- Witness for C5: a single-identifier lookup whose chunk gets an empty
response aborts with the ValueError. -/
theorem coneLoop_no_data_raises_witness :
    coneLoop wrespNone ["a_1"] [1] [2] "cat" 2 "arcsec" 2 1 0 [] [] =
      Except.error (coneErrMsg
        ((mkConeQuery ["a_1"] [1] [2] "cat" 2 "arcsec" 2 0).radec.map Prod.fst)) :=
  coneLoop_no_data_raises wrespNone ["a_1"] [1] [2] "cat" 2 "arcsec" 2 0 [] [] 1
    (by decide) rfl

/-- C10: identifiers whose cone search returns an empty match list are
silently dropped from the returned table: appending such an identifier to
the response data leaves the table unchanged, and every returned row stems
from an identifier with at least one matching record. -/
theorem coneRows_drops_empty_matches :
    ∀ (data : List (String × List Nat)) (k : String),
      coneRows (data ++ [(k, [])]) = coneRows data ∧
      ∀ row ∈ coneRows data, ∃ kv, kv ∈ data ∧ kv.2 ≠ [] ∧ row.1 ∈ kv.2 ∧
        row.2 = replaceUnderscore kv.1 := by
  intro data k
  refine ⟨?_, fun row hrow => mem_coneRows data row hrow⟩
  unfold coneRows
  rw [List.filter_append]
  simp [List.filter]

/-- Witness for C10: the identifier a_b with zero matches contributes no
row, the identifier c_d with one match yields the row (7, c.d). -/
theorem coneRows_drops_empty_matches_witness :
    coneRows ([("c_d", [7])] ++ [("a_b", [])]) = coneRows [("c_d", [7])] ∧
      ∃ kv, kv ∈ [("c_d", ([7] : List Nat))] ∧ kv.2 ≠ [] ∧ (7 : Nat) ∈ kv.2 ∧
        "c.d" = replaceUnderscore kv.1 := by
  obtain ⟨h1, h2⟩ := coneRows_drops_empty_matches [("c_d", [7])] "a_b"
  exact ⟨h1, h2 (7, "c.d") (by decide)⟩

/-- C4: a call of get_cone_ids with 3 identifiers, matching coordinate
lists, and limit_per_query 2, against a service that answers every chunk
with data keyed by the queried identifiers, issues exactly 2 chunk queries
of sizes 2 and 1, and every row of the returned table carries an obj_id in
which the underscores of a queried identifier are replaced by the dot
separator. -/
theorem get_cone_ids_three_ids_two_chunks
    (resp : ConeQuery → Option (List (String × List Nat)))
    (objs : List String) (ras decs : List ℚ) (catalog : String) (radius : ℚ)
    (unitName : String) (fuel : Nat)
    (hobjs : objs.length = 3) (hras : ras.length = 3) (hdecs : decs.length = 3)
    (hfuel : 2 ≤ fuel)
    (hsome : ∀ q, (resp q).isSome = true)
    (hkeys : ∀ q td, resp q = some td → ∀ p ∈ td, p.1 ∈ q.radec.map Prod.fst) :
    ∃ qs rows,
      get_cone_ids resp objs ras decs catalog radius unitName 2 fuel =
          Except.ok (qs, rows) ∧
        qs.map (fun q => q.radec.length) = [2, 1] ∧
        ∀ row ∈ rows, ∃ k, k ∈ objs ∧ row.2 = replaceUnderscore k := by
  obtain ⟨a, b, c, rfl⟩ := List.length_eq_three.mp hobjs
  obtain ⟨x1, x2, x3, rfl⟩ := List.length_eq_three.mp hras
  obtain ⟨y1, y2, y3, rfl⟩ := List.length_eq_three.mp hdecs
  obtain ⟨g, rfl⟩ : ∃ g, fuel = g + 1 + 1 := ⟨fuel - 2, by omega⟩
  obtain ⟨td0, hq0⟩ := Option.isSome_iff_exists.mp
    (hsome (mkConeQuery [a, b, c] [x1, x2, x3] [y1, y2, y3] catalog radius unitName 2 0))
  obtain ⟨td1, hq1⟩ := Option.isSome_iff_exists.mp
    (hsome (mkConeQuery [a, b, c] [x1, x2, x3] [y1, y2, y3] catalog radius unitName 2 1))
  refine ⟨[mkConeQuery [a, b, c] [x1, x2, x3] [y1, y2, y3] catalog radius unitName 2 0,
      mkConeQuery [a, b, c] [x1, x2, x3] [y1, y2, y3] catalog radius unitName 2 1],
    coneRows (dictUpdate (dictUpdate [] td0) td1), ?_, ?_, ?_⟩
  · simp [get_cone_ids, coneLoop_step, hq0, hq1]
  · rfl
  · intro row hrow
    obtain ⟨kv, hkv, hne, hv1, hrep⟩ :=
      mem_coneRows (dictUpdate (dictUpdate [] td0) td1) row hrow
    have hkeymem : kv.1 ∈ (dictUpdate (dictUpdate [] td0) td1).map Prod.fst :=
      List.mem_map_of_mem Prod.fst hkv
    rcases mem_keys_dictUpdate td1 (dictUpdate [] td0) kv.1 hkeymem with h | h
    · rcases mem_keys_dictUpdate td0 [] kv.1 h with h2 | h2
      · simp at h2
      · obtain ⟨p, hp, hpk⟩ := List.mem_map.mp h2
        have hk := hkeys _ td0 hq0 p hp
        rw [hpk] at hk
        have hradec : (mkConeQuery [a, b, c] [x1, x2, x3] [y1, y2, y3] catalog radius
            unitName 2 0).radec.map Prod.fst = [a, b] := rfl
        rw [hradec] at hk
        refine ⟨kv.1, ?_, hrep⟩
        simp only [List.mem_cons, List.not_mem_nil, or_false] at hk ⊢
        tauto
    · obtain ⟨p, hp, hpk⟩ := List.mem_map.mp h
      have hk := hkeys _ td1 hq1 p hp
      rw [hpk] at hk
      have hradec : (mkConeQuery [a, b, c] [x1, x2, x3] [y1, y2, y3] catalog radius
          unitName 2 1).radec.map Prod.fst = [c] := rfl
      rw [hradec] at hk
      refine ⟨kv.1, ?_, hrep⟩
      simp only [List.mem_singleton] at hk
      simp [hk]

/-- A response function answering every chunk with one record per queried
identifier. -/
def wresp : ConeQuery → Option (List (String × List Nat)) :=
  fun q => some (q.radec.map (fun p => (p.1, [0])))

/-- Witness for C4 at three concrete identifiers with batch size 2. -/
theorem get_cone_ids_three_ids_two_chunks_witness :
    ∃ qs rows,
      get_cone_ids wresp ["a_1", "b_2", "c_3"] [1, 2, 3] [4, 5, 6]
          "ZTF_source_features_DR5" 2 "arcsec" 2 2 = Except.ok (qs, rows) ∧
        qs.map (fun q => q.radec.length) = [2, 1] ∧
        ∀ row ∈ rows, ∃ k, k ∈ ["a_1", "b_2", "c_3"] ∧ row.2 = replaceUnderscore k :=
  get_cone_ids_three_ids_two_chunks wresp ["a_1", "b_2", "c_3"] [1, 2, 3] [4, 5, 6]
    "ZTF_source_features_DR5" 2 "arcsec" 2 rfl rfl rfl (by omega)
    (fun _ => rfl)
    (by
      intro q td h p hp
      cases h
      simp only [List.mem_map] at hp
      obtain ⟨r, hr, rfl⟩ := hp
      exact List.mem_map_of_mem Prod.fst hr)
